import Mathlib

/-!
Verification of the ChRIS API / ChRIS store API JavaScript client library
(protocol layer: Collection+JSON codec, transport wrapper, resource model,
façade clients) against its specification.

The embedding follows the source files
`src/js/chrisStoreAPI/src/client.js` and `src/js/chrisAPI/src/client.js`.
Modules of the repository that are not among the provided sources
(`cj.js`, `request.js`, `resource.js`) are modelled from the spec where
needed; such definitions carry a doc comment starting with
`Modelled from the spec:`.
-/

namespace ChrisApi

/-! ## Data model: the decoded Collection+JSON envelope -/

/-- A Collection+JSON descriptor `{name, value}` inside an item's `data`
array or a template. -/
structure Descriptor where
  name : String
  value : String
deriving Repr, DecidableEq

/-- A Collection+JSON link `{rel, href}`. -/
structure Link where
  rel : String
  href : String
deriving Repr, DecidableEq

/-- A Collection+JSON item: an href, a `data` array of descriptors, and its
own links. -/
structure Item where
  href : String
  data : List Descriptor
  links : List Link
deriving Repr, DecidableEq

/-- The decoded `collection` envelope: version, href, links and items. -/
structure Collection where
  version : String
  href : String
  links : List Link
  items : List Item
deriving Repr, DecidableEq

/-! ## Error taxonomy

The source code (`exception.js`) defines a single exception type,
`RequestException`; every error raised by the two client files is a
`RequestException`.  The spec's §7 taxonomy additionally names
`ConfigError`, `ProtocolError` and `NotFoundError`; they are carried as
constructors here so that statements of the form "the error is a
NotFoundError, never a RequestException" can be expressed and compared
against what the code actually raises. -/

inductive ApiError
  /-- `RequestException` from `exception.js` — the only exception type the
  source code defines and throws. -/
  | requestException (msg : String)
  /-- Modelled from the spec: `NotFoundError` of §7 — no such type exists in
  the source; present only to state spec claims. -/
  | notFoundError (msg : String)
  /-- Modelled from the spec: `ProtocolError` of §7 — no such type exists in
  the source; present only to state spec claims. -/
  | protocolError (msg : String)
  /-- Modelled from the spec: `ConfigError` of §7 — no such type exists in
  the source; present only to state spec claims. -/
  | configError (msg : String)
deriving Repr, DecidableEq

/-- Whether an `ApiError` is the transport-level `RequestException`. -/
def ApiError.isRequestException : ApiError → Bool
  | .requestException _ => true
  | _ => false

/-- Whether an `ApiError` is the spec's `NotFoundError`. -/
def ApiError.isNotFoundError : ApiError → Bool
  | .notFoundError _ => true
  | _ => false

/-! ## Collection codec (`cj.js`, not among the provided sources) -/

/-- Modelled from the spec: `cj.js` (`Collection.getLinkRelationUrls`) is not
among the provided sources.  Per §4.1: returns the URLs of all Links whose
relation equals `relationName`, preserving source order; returns an empty
sequence (never null) when absent.  The container's links are passed as the
`links` list (a `Collection`'s or a single `Item`'s). -/
def getLinkRelationUrls (links : List Link) (relationName : String) : List String :=
  (links.filter (fun l => l.rel = relationName)).map Link.href

/-- One step of building a plain JS object from a descriptor sequence:
`obj[d.name] = d.value` — an existing key keeps its position and gets the
new value, a new key is appended. -/
def insertDescriptor (acc : List (String × String)) (d : Descriptor) :
    List (String × String) :=
  if acc.any (fun p => p.1 = d.name) then
    acc.map (fun p => if p.1 = d.name then (p.1, d.value) else p)
  else
    acc ++ [(d.name, d.value)]

/-- Modelled from the spec: `cj.js` (`Collection.getItemDescriptors`) is not
among the provided sources.  Per §4.1: flattens an Item's Descriptor
sequence into a name-to-value mapping; later duplicate names overwrite
earlier ones (last-write-wins). -/
def getItemDescriptors (item : Item) : List (String × String) :=
  item.data.foldl insertDescriptor []

/-- Modelled from the spec: `cj.js` (`Collection.makeTemplate`) is not among
the provided sources.  Per §4.1: converts a plain field mapping into the
Descriptor sequence required for write requests, preserving mapping
iteration order; values of null/absent are omitted. -/
def makeTemplate (mapping : List (String × Option String)) : List Descriptor :=
  mapping.filterMap (fun p => p.2.map (fun v => { name := p.1, value := v }))

/-! ## `StoreClient.getDataFromCollection`
(`chrisStoreAPI/src/client.js` lines 493–511) -/

/-- The list-shaped result produced for `collection_type === 'list'`:
per-item descriptor mappings plus pagination flags. -/
structure ListResult where
  data : List (List (String × String))
  hasNextPage : Bool
  hasPreviousPage : Bool
deriving Repr, DecidableEq

/-- The item-shaped result produced for any other `collection_type`:
the first item's descriptor mapping. -/
structure ItemResult where
  data : List (String × String)
deriving Repr, DecidableEq

/-- The result object of `StoreClient.getDataFromCollection`. -/
inductive ResultData
  | list (r : ListResult)
  | item (r : ItemResult)
deriving Repr, DecidableEq

/-- `StoreClient.getDataFromCollection(coll, collection_type)`.  For
`'list'` it maps `getItemDescriptors` over all items and derives
`hasNextPage` / `hasPreviousPage` from the `next` / `previous` link
relations (`next.length ? true : false`).  For any other type it reads
`coll.items[0]` unguarded — the JS `TypeError` on an empty items array is
modelled as `none`. -/
def getDataFromCollection (coll : Collection) (collection_type : String) :
    Option ResultData :=
  if collection_type = "list" then
    some (.list
      { data := coll.items.map getItemDescriptors
        hasNextPage := decide ((getLinkRelationUrls coll.links "next").length ≠ 0)
        hasPreviousPage :=
          decide ((getLinkRelationUrls coll.links "previous").length ≠ 0) })
  else
    (coll.items.head?).map (fun it => .item { data := getItemDescriptors it })

/-! ## StoreClient (`chrisStoreAPI/src/client.js`) -/

/-- An authentication object (`auth`): a token or a username/password
pair, as accepted by both clients. -/
structure Auth where
  token : Option String := none
  username : Option String := none
  password : Option String := none
deriving Repr, DecidableEq

/-- The fields set by the `StoreClient` constructor (lines 20–28).  `auth`
is `Option Auth`: `none` models the JS default `auth = null`. -/
structure StoreClientState where
  storeUrl : String
  storeQueryUrl : String
  pipelinesUrl : String
  pipelinesQueryUrl : String
  auth : Option Auth
  timeout : Nat
  contentType : String
deriving Repr, DecidableEq

/-- `new StoreClient(storeUrl, auth, timeout)` — the constructor assigns
every field unconditionally; there is no check on `auth`, so construction
never fails. -/
def StoreClient.construct (storeUrl : String) (auth : Option Auth)
    (timeout : Nat := 30000) : Except ApiError StoreClientState :=
  .ok
    { storeUrl := storeUrl
      storeQueryUrl := storeUrl ++ "search/"
      pipelinesUrl := ""
      pipelinesQueryUrl := ""
      auth := auth
      timeout := timeout
      contentType := "application/vnd.collection+json" }

/-- `StoreClient._getItemResourceData` (lines 533–543), applied to the
collection the id-filtered fetch returned: if `coll.items.length` is
nonzero return `getDataFromCollection(coll, 'item')`, otherwise throw
`RequestException('Could not find resource with id: ' + id)`. -/
def StoreClient.getItemResourceData (coll : Collection) (id : Nat) :
    Except ApiError (Option ResultData) :=
  if coll.items.length ≠ 0 then
    .ok (getDataFromCollection coll "item")
  else
    .error (.requestException ("Could not find resource with id: " ++ toString id))

/-- `StoreClient._getListResourceData` (lines 590–594), applied to the
fetched collection. -/
def StoreClient.getListResourceData (coll : Collection) : Option ResultData :=
  getDataFromCollection coll "list"

/-- `StoreClient._getResourceRelatedListData` (lines 608–639), with the
first (id-filtered) fetch's collection passed in as `coll` and the second
network fetch abstracted as the oracle `fetchRelated` mapping the requested
URL to the server's reply.  Mirrors the source: empty items → throw
`RequestException`; item's links for `listRelName` empty → resolve the
default `{data: [], hasNextPage: false, hasPreviousPage: false}` result;
otherwise fetch `listLinks[0]` and build the list result from it. -/
def StoreClient.getResourceRelatedListData (coll : Collection) (id : Nat)
    (listRelName : String) (fetchRelated : String → Except ApiError Collection) :
    Except ApiError (Option ResultData) :=
  match coll.items with
  | [] => .error (.requestException ("Could not find resource with id: " ++ toString id))
  | item :: _ =>
    match getLinkRelationUrls item.links listRelName with
    | [] =>
      .ok (some (.list { data := [], hasNextPage := false, hasPreviousPage := false }))
    | url :: _ =>
      (fetchRelated url).map (fun c => getDataFromCollection c "list")

/-- `StoreClient.getUser` (lines 373–393), with the entry-point fetch's
collection passed in as `entryColl` and the second fetch abstracted as the
oracle `fetch`.  The source reads `userUrls[0]` unguarded
(`// there is only a single user url`); the outer `Option` models the
undefined URL when no `user` link exists. -/
def StoreClient.getUser (entryColl : Collection)
    (fetch : String → Except ApiError Collection) :
    Option (Except ApiError (Option ResultData)) :=
  (getLinkRelationUrls entryColl.links "user").head?.map
    (fun url => (fetch url).map (fun c => getDataFromCollection c "item"))

/-- The continuation applied to the POST response collection in
`StoreClient.createUser` (line 457): `getDataFromCollection(resp.data.collection, 'item')`
with no emptiness check. -/
def StoreClient.createUserResolve (respColl : Collection) : Option ResultData :=
  getDataFromCollection respColl "item"

/-- The continuation applied to the POST response collection in
`StoreClient.addPlugin` (line 110) — identical unguarded call. -/
def StoreClient.addPluginResolve (respColl : Collection) : Option ResultData :=
  getDataFromCollection respColl "item"

/-- The resolution applied to the PUT response collection in
`StoreClient.modifyPlugin` (line 161) — identical unguarded call. -/
def StoreClient.modifyPluginResolve (respColl : Collection) : Option ResultData :=
  getDataFromCollection respColl "item"

/-- The resolution applied to the PUT response collection in
`StoreClient.modifyPipeline` (line 350) — identical unguarded call. -/
def StoreClient.modifyPipelineResolve (respColl : Collection) : Option ResultData :=
  getDataFromCollection respColl "item"

/-- The resolution applied to the second GET response collection in
`StoreClient.getUser` (line 390) — identical unguarded call. -/
def StoreClient.getUserResolve (respColl : Collection) : Option ResultData :=
  getDataFromCollection respColl "item"

/-- The resolution applied to the PUT response collection in
`StoreClient.updateUser` (line 429) — identical unguarded call. -/
def StoreClient.updateUserResolve (respColl : Collection) : Option ResultData :=
  getDataFromCollection respColl "item"

/-- The request-body data object built by `StoreClient.modifyPlugin`
(lines 135–146): `public_repo` is the argument when truthy, otherwise the
`public_repo` descriptor value of the just-fetched first item
(`coll.items[0].data.filter(d => d.name === 'public_repo')[0].value`,
unguarded — `none` models the JS crash when no such descriptor exists);
`owner` is included only when `newOwner` is truthy. -/
def StoreClient.modifyPluginData (item : Item) (publicRepo newOwner : String) :
    Option (List (String × String)) :=
  let repoVal? : Option String :=
    if publicRepo ≠ "" then some publicRepo
    else ((item.data.filter (fun d => d.name = "public_repo")).head?).map
      Descriptor.value
  repoVal?.map (fun rv =>
    let base := [("public_repo", rv)]
    if newOwner ≠ "" then base ++ [("owner", newOwner)] else base)

/-- `StoreClient.modifyPlugin(id, publicRepo, newOwner)` (lines 121–164) up
to the PUT request: given the id-filtered fetch's collection, produce the
PUT target URL (`coll.items[0].href`) and the template-wrapped body, or
throw `RequestException` when no item matched. -/
def StoreClient.modifyPlugin (coll : Collection) (id : Nat)
    (publicRepo newOwner : String) :
    Except ApiError (Option (String × List Descriptor)) :=
  match coll.items with
  | [] => .error (.requestException ("Could not find resource with id: " ++ toString id))
  | item :: _ =>
    .ok ((StoreClient.modifyPluginData item publicRepo newOwner).map
      (fun m => (item.href, makeTemplate (m.map (fun p => (p.1, some p.2))))))

/-! ## Request payload shapes (`client.js` static methods of both clients) -/

/-- A JSON value, as assembled client-side for request bodies and decoded
from response bodies. -/
inductive JsonVal
  | str (s : String)
  | obj (fields : List (String × JsonVal))
  | arr (elems : List JsonVal)

/-- Field lookup on a JSON object (first match), as JS property access. -/
def JsonVal.lookup : JsonVal → String → Option JsonVal
  | .obj fields, k => (fields.find? (fun p => p.1 = k)).map Prod.snd
  | _, _ => none

/-- An outgoing POST request: target URL, the content type the `Request`
object was constructed with, and the body data object. -/
structure PostRequest where
  url : String
  contentType : String
  body : JsonVal

/-- The Collection+JSON template envelope for a user account, as assembled
by both `createUser` implementations:
`{template: {data: [{name: 'username', value}, {name: 'password', value}, {name: 'email', value}]}}`. -/
def userTemplateEnvelope (username password email : String) : JsonVal :=
  .obj [("template", .obj [("data", .arr
    [ .obj [("name", .str "username"), ("value", .str username)]
    , .obj [("name", .str "password"), ("value", .str password)]
    , .obj [("name", .str "email"), ("value", .str email)] ])])]

/-- The POST request issued by `Client.createUser` (chrisAPI lines 499–510):
a `Request` with content type `'application/vnd.collection+json'` posting
the template envelope to `usersUrl`. -/
def Client.createUserRequest (usersUrl username password email : String) :
    PostRequest :=
  { url := usersUrl
    contentType := "application/vnd.collection+json"
    body := userTemplateEnvelope username password email }

/-- The POST request issued by `StoreClient.createUser` (chrisStoreAPI
lines 444–456) — same content type and envelope. -/
def StoreClient.createUserRequest (usersUrl username password email : String) :
    PostRequest :=
  { url := usersUrl
    contentType := "application/vnd.collection+json"
    body := userTemplateEnvelope username password email }

/-- The POST request issued by `Client.getAuthToken` (chrisAPI lines
529–536) and `StoreClient.getAuthToken` (chrisStoreAPI lines 468–475): a
`Request` with content type `'application/json'` posting the plain object
`{username, password}` to `authUrl`. -/
def Client.getAuthTokenRequest (authUrl username password : String) :
    PostRequest :=
  { url := authUrl
    contentType := "application/json"
    body := .obj [("username", .str username), ("password", .str password)] }

/-- The resolution applied to the response in both `getAuthToken`
implementations: `resp => resp.data.token`. -/
def Client.getAuthTokenResolve (respData : JsonVal) : Option JsonVal :=
  respData.lookup "token"

/-! ## Façade `Client` (`chrisAPI/src/client.js`) -/

/-- A cached top-level URL field of the façade client.  The constructor
initialises these fields to the empty string `''` (falsy), modelled as
`none`; `getFeeds` assigns `Collection.getLinkRelationUrls(coll, rel)` — a
URL list, always truthy in JS even when empty — modelled as `some urls`. -/
abbrev CachedUrl := Option (List String)

/-- The fields set by the `Client` constructor (chrisAPI lines 26–46). -/
structure ClientState where
  url : String
  auth : Auth
  feedsUrl : String
  filesUrl : CachedUrl
  pluginsUrl : CachedUrl
  pluginInstancesUrl : CachedUrl
  pipelinesUrl : CachedUrl
  pipelineInstancesUrl : CachedUrl
  tagsUrl : CachedUrl
  uploadedFilesUrl : CachedUrl
  userUrl : CachedUrl
deriving Repr, DecidableEq

/-- `new Client(url, auth)` (chrisAPI lines 26–46): throws
`RequestException('Authentication object is required')` when `auth` is
falsy, otherwise assigns `feedsUrl = url` and sets all other top-level
resource URLs to `''`. -/
def Client.construct (url : String) (auth : Option Auth) :
    Except ApiError ClientState :=
  match auth with
  | none => .error (.requestException "Authentication object is required")
  | some a =>
    .ok
      { url := url, auth := a, feedsUrl := url
        filesUrl := none, pluginsUrl := none, pluginInstancesUrl := none
        pipelinesUrl := none, pipelineInstancesUrl := none, tagsUrl := none
        uploadedFilesUrl := none, userUrl := none }

/-- The JS idiom `this.x = this.x || getUrl(coll, rel)` on a cached URL
field: an already-assigned URL list (truthy even when empty) is kept, an
empty-string field (falsy) is replaced by the freshly extracted list. -/
def orKeep (x : CachedUrl) (y : List String) : CachedUrl :=
  match x with
  | none => some y
  | some l => some l

/-- The URL-caching assignments performed inside `Client.getFeeds`
(chrisAPI lines 83–90) on the fetched entry-point collection. -/
def Client.updateUrls (st : ClientState) (coll : Collection) : ClientState :=
  { st with
    filesUrl := orKeep st.filesUrl (getLinkRelationUrls coll.links "files")
    pluginsUrl := orKeep st.pluginsUrl (getLinkRelationUrls coll.links "plugins")
    pluginInstancesUrl :=
      orKeep st.pluginInstancesUrl (getLinkRelationUrls coll.links "plugin_instances")
    pipelinesUrl := orKeep st.pipelinesUrl (getLinkRelationUrls coll.links "pipelines")
    pipelineInstancesUrl :=
      orKeep st.pipelineInstancesUrl
        (getLinkRelationUrls coll.links "pipeline_instances")
    tagsUrl := orKeep st.tagsUrl (getLinkRelationUrls coll.links "tags")
    uploadedFilesUrl :=
      orKeep st.uploadedFilesUrl (getLinkRelationUrls coll.links "uploadedfiles")
    userUrl := orKeep st.userUrl (getLinkRelationUrls coll.links "user") }

/-- `Client._fetchRes(resUrl, ResClass, ...)` (chrisAPI lines 557–563) as a
state transformer: when the cached `resUrl` is truthy the resource is
fetched from it directly and the client state is untouched; when it is
falsy, `setUrls()` (= `getFeeds`, whose entry-point fetch returned
`entryColl`) runs first.  The second component is the URL list `getRes`
then uses — the closure captures the original `resUrl` parameter, so after
discovery it is still the stale falsy value. -/
def Client.fetchRes (st : ClientState) (resUrl : CachedUrl) (entryColl : Collection) :
    ClientState × CachedUrl :=
  match resUrl with
  | some urls => (st, some urls)
  | none => (Client.updateUrls st entryColl, none)

/-- `Client.getFiles` (chrisAPI line 143): `_fetchRes(this.filesUrl, ...)`. -/
def Client.getFilesStep (st : ClientState) (entryColl : Collection) :
    ClientState × CachedUrl :=
  Client.fetchRes st st.filesUrl entryColl

/-- `Client.getPlugins` (chrisAPI line 182). -/
def Client.getPluginsStep (st : ClientState) (entryColl : Collection) :
    ClientState × CachedUrl :=
  Client.fetchRes st st.pluginsUrl entryColl

/-- `Client.getPluginInstances` (chrisAPI line 219). -/
def Client.getPluginInstancesStep (st : ClientState) (entryColl : Collection) :
    ClientState × CachedUrl :=
  Client.fetchRes st st.pluginInstancesUrl entryColl

/-- `Client.getPipelines` (chrisAPI line 279). -/
def Client.getPipelinesStep (st : ClientState) (entryColl : Collection) :
    ClientState × CachedUrl :=
  Client.fetchRes st st.pipelinesUrl entryColl

/-- `Client.getPipelineInstances` (chrisAPI lines 333–340). -/
def Client.getPipelineInstancesStep (st : ClientState) (entryColl : Collection) :
    ClientState × CachedUrl :=
  Client.fetchRes st st.pipelineInstancesUrl entryColl

/-- `Client.getTags` (chrisAPI line 395). -/
def Client.getTagsStep (st : ClientState) (entryColl : Collection) :
    ClientState × CachedUrl :=
  Client.fetchRes st st.tagsUrl entryColl

/-- `Client.getUploadedFiles` (chrisAPI line 443). -/
def Client.getUploadedFilesStep (st : ClientState) (entryColl : Collection) :
    ClientState × CachedUrl :=
  Client.fetchRes st st.uploadedFilesUrl entryColl

/-- `Client.getUser` (chrisAPI line 485). -/
def Client.getUserStep (st : ClientState) (entryColl : Collection) :
    ClientState × CachedUrl :=
  Client.fetchRes st st.userUrl entryColl

/-- The URL selection inside `Client.createPluginInstance` (chrisAPI lines
249–257): `getLinkRelationUrls(plg.collection.items[0], 'instances')[0]`,
both indexings unguarded (modelled by the `Option`s). -/
def Client.createPluginInstanceUrl (plgColl : Collection) : Option String :=
  plgColl.items.head?.bind
    (fun it => (getLinkRelationUrls it.links "instances").head?)

/-- The URL selection inside `Client.createPipelineInstance` (chrisAPI
lines 366–377) — same pattern on the pipeline's collection. -/
def Client.createPipelineInstanceUrl (pipColl : Collection) : Option String :=
  pipColl.items.head?.bind
    (fun it => (getLinkRelationUrls it.links "instances").head?)

/-! ## Transport and resource-model state (`request.js` / `resource.js`,
not among the provided sources) -/

/-- The raw outcome of one network call before normalization: either a
decoded collection from a 2xx response, or a failure (timeout, network
fault, or non-2xx response, described by `kind`). -/
inductive TransportOutcome
  | success (coll : Collection)
  | failure (kind : String)
deriving Repr, DecidableEq

/-- Modelled from the spec: `request.js` (Transport) is not among the
provided sources.  Per §4.2: any non-2xx response, network fault, or
timeout is reported as a single `RequestException`. -/
def Transport.normalize : TransportOutcome → Except ApiError Collection
  | .success c => .ok c
  | .failure kind => .error (.requestException kind)

/-- The visible state of a List/Item resource object: URL and credentials
fixed at construction, the last-fetched Collection (nullable until
fetched), the last search-parameter set, and the pagination flags. -/
structure ResourceState where
  url : String
  auth : Auth
  collection : Option Collection
  searchParams : List (String × String)
  hasNextPage : Bool
  hasPreviousPage : Bool
deriving Repr, DecidableEq

/-- Modelled from the spec: `resource.js` (the List/Item resource `get`) is
not among the provided sources.  Per §4.3 and §5: `get` issues a transport
request; on transport failure it fails with the normalized
`RequestException` and the resource object is left in its prior state (no
partial state mutation); on success it replaces the internal Collection,
records the search parameters, and recomputes `hasNextPage` /
`hasPreviousPage` from the `next` / `previous` links.  The result pairs
the resource state after the call with the surfaced error, if any. -/
def ResourceState.get (res : ResourceState) (searchParams : List (String × String))
    (outcome : TransportOutcome) : ResourceState × Option ApiError :=
  match Transport.normalize outcome with
  | .error e => (res, some e)
  | .ok coll =>
    ({ res with
        collection := some coll
        searchParams := searchParams
        hasNextPage := decide ((getLinkRelationUrls coll.links "next").length ≠ 0)
        hasPreviousPage :=
          decide ((getLinkRelationUrls coll.links "previous").length ≠ 0) },
      none)

/-- Modelled from the spec: `resource.js` (the ListResource `post`) is not
among the provided sources.  Per §4.3 and §5: `post` builds a Template from
`data` via the Collection Codec and submits it to the resource's own URL
(the first component is the submitted template body); on transport failure
the normalized `RequestException` surfaces and the resource object is left
in its prior state; on success the response collection becomes the new
state and the pagination flags are recomputed from its links. -/
def ResourceState.post (res : ResourceState) (data : List (String × Option String))
    (outcome : TransportOutcome) :
    List Descriptor × ResourceState × Option ApiError :=
  (makeTemplate data,
    match Transport.normalize outcome with
    | .error e => (res, some e)
    | .ok coll =>
      ({ res with
          collection := some coll
          hasNextPage := decide ((getLinkRelationUrls coll.links "next").length ≠ 0)
          hasPreviousPage :=
            decide ((getLinkRelationUrls coll.links "previous").length ≠ 0) },
        none))

/-- Modelled from the spec: `resource.js` (the ItemResource `put`) is not
among the provided sources.  Per §4.3 and §5: `put` applies the same
templating rule as `post` and submits to the item's own href (the first
component is the submitted template body); on transport failure the
normalized `RequestException` surfaces and the resource object is left in
its prior state; on success the internal Collection is replaced. -/
def ResourceState.put (res : ResourceState) (data : List (String × Option String))
    (outcome : TransportOutcome) :
    List Descriptor × ResourceState × Option ApiError :=
  (makeTemplate data,
    match Transport.normalize outcome with
    | .error e => (res, some e)
    | .ok coll => ({ res with collection := some coll }, none))

/-- Modelled from the spec: `resource.js` (the ItemResource `delete`) is
not among the provided sources.  Per §4.3 and §5: `delete` issues
Transport.delete to the item's href; success yields no resource (`none`,
the conceptual terminal state); on transport failure the normalized
`RequestException` surfaces and the resource object is left in its prior
state. -/
def ResourceState.delete (res : ResourceState) (outcome : TransportOutcome) :
    Option ResourceState × Option ApiError :=
  match Transport.normalize outcome with
  | .error e => (some res, some e)
  | .ok _ => (none, none)

/-! ## Helper projections and concrete fixtures -/

/-- The key of the first field of a JSON object, used to separate concrete
JSON shapes. -/
def JsonVal.topFieldKey : JsonVal → Option String
  | .obj ((k, _) :: _) => some k
  | _ => none

/-- The number of top-level fields of a JSON object. -/
def JsonVal.numFields : JsonVal → Nat
  | .obj fields => fields.length
  | _ => 0

/-- A well-formed collection whose id-filtered match is empty. -/
def collEmpty : Collection :=
  { version := "1.0", href := "http://store/api/v1/search/", links := [], items := [] }

/-- An item carrying no links at all. -/
def itemNoLinks : Item :=
  { href := "http://store/api/v1/1/"
    data := [{ name := "id", value := "1" }]
    links := [] }

/-- A collection whose single matched item has no links. -/
def collOneItemNoLinks : Collection :=
  { version := "1.0", href := "http://store/api/v1/search/", links := []
    items := [itemNoLinks] }

/-- An item carrying two `instances` links. -/
def itemTwoInstances : Item :=
  { href := "http://cube/api/v1/plugins/4/"
    data := [{ name := "id", value := "4" }]
    links :=
      [ { rel := "instances", href := "http://cube/api/v1/plugins/4/instances/" }
      , { rel := "instances", href := "http://cube/api/v1/plugins/4/instances2/" } ] }

/-- A collection whose single matched item has two `instances` links. -/
def collTwoInstances : Collection :=
  { version := "1.0", href := "http://cube/api/v1/plugins/search/", links := []
    items := [itemTwoInstances] }

/-- An entry-point collection carrying two `user` links. -/
def entryTwoUserLinks : Collection :=
  { version := "1.0", href := "http://store/api/v1/"
    links :=
      [ { rel := "user", href := "http://store/api/v1/users/7/" }
      , { rel := "user", href := "http://store/api/v1/users/8/" } ]
    items := [] }

/-- A constant fetch oracle answering every URL with `collEmpty`. -/
def fetchConstEmpty : String → Except ApiError Collection :=
  fun _ => .ok collEmpty

/-- An item carrying a `public_repo` descriptor. -/
def itemWithRepo : Item :=
  { href := "http://store/api/v1/5/"
    data :=
      [ { name := "name", value := "pl-testplugin" }
      , { name := "public_repo", value := "http://github.example/old" } ]
    links := [] }

/-- A collection whose single matched item carries a `public_repo`
descriptor. -/
def collWithRepo : Collection :=
  { version := "1.0", href := "http://store/api/v1/search/", links := []
    items := [itemWithRepo] }

/-! ## Theorems -/

/-- Claim C1, counterexample: `StoreClient.getPlugin(7)` on a successful
id-filtered fetch matching zero items fails with a `RequestException`
('Could not find resource with id: 7') — it is not a `NotFoundError`, so
the empty match is reported as a `RequestException` after all. -/
theorem getPlugin_empty_match_raises_requestException_cx :
    StoreClient.getItemResourceData collEmpty 7
      = .error (.requestException "Could not find resource with id: 7")
    ∧ (ApiError.requestException "Could not find resource with id: 7").isNotFoundError
      = false := by
  exact ⟨rfl, rfl⟩

/-- Claim C1 (amended): for every StoreClient list-resource lookup by id,
when the id-filtered fetch succeeds but matches zero items, the operation
fails with `RequestException` carrying the message
'Could not find resource with id: ' + id; the code defines no separate
`NotFoundError` signal. -/
theorem empty_match_raises_requestException (coll : Collection) (id : Nat)
    (h : coll.items = []) :
    StoreClient.getItemResourceData coll id
      = .error (.requestException ("Could not find resource with id: " ++ toString id))
    ∧ (ApiError.requestException ("Could not find resource with id: " ++ toString id)).isRequestException
      = true := by
  refine ⟨?_, rfl⟩
  simp [StoreClient.getItemResourceData, h]

/-- Witness for claim C1's amended theorem at the concrete empty
collection. -/
theorem empty_match_raises_requestException_witness :
    StoreClient.getItemResourceData collEmpty 7
      = .error (.requestException ("Could not find resource with id: " ++ toString 7))
    ∧ (ApiError.requestException ("Could not find resource with id: " ++ toString 7)).isRequestException
      = true :=
  empty_match_raises_requestException collEmpty 7 rfl

/-- Claim C2, counterexample: `new StoreClient(url, null)` succeeds — a
client is constructed with missing credentials — and `new Client(url, null)`
fails with a `RequestException`, not a `ConfigError`. -/
theorem construct_without_credentials_cx :
    StoreClient.construct "http://store/api/v1/" none 30000
      = .ok
        { storeUrl := "http://store/api/v1/"
          storeQueryUrl := "http://store/api/v1/search/"
          pipelinesUrl := "", pipelinesQueryUrl := ""
          auth := none, timeout := 30000
          contentType := "application/vnd.collection+json" }
    ∧ Client.construct "http://cube/api/v1/" none
      = .error (.requestException "Authentication object is required")
    ∧ (ApiError.requestException "Authentication object is required").isRequestException
      = true := by
  exact ⟨rfl, rfl, rfl⟩

/-- Claim C2 (amended): supplying no credentials to the chrisAPI `Client`
constructor is an immediate synchronous fault reported as
`RequestException` ('Authentication object is required'), not as a
`ConfigError`; the `StoreClient` constructor performs no credentials check
and always constructs successfully, also with missing credentials. -/
theorem construct_without_credentials (url storeUrl : String) (timeout : Nat) :
    Client.construct url none
      = .error (.requestException "Authentication object is required")
    ∧ StoreClient.construct storeUrl none timeout
      = .ok
        { storeUrl := storeUrl
          storeQueryUrl := storeUrl ++ "search/"
          pipelinesUrl := "", pipelinesQueryUrl := ""
          auth := none, timeout := timeout
          contentType := "application/vnd.collection+json" } :=
  ⟨rfl, rfl⟩

/-- Claim C4, counterexample: when the matched item carries no Link with
the requested relation, `StoreClient._getResourceRelatedListData` resolves
successfully with the default empty result
`{data: [], hasNextPage: false, hasPreviousPage: false}` — it raises no
`ProtocolError` (the fetch oracle is never consulted). -/
theorem related_list_absent_relation_silently_empty_cx :
    StoreClient.getResourceRelatedListData collOneItemNoLinks 1 "parameters"
        (fun _ => .error (.requestException "no second request is made"))
      = .ok (some (.list { data := [], hasNextPage := false, hasPreviousPage := false })) :=
  rfl

/-- Claim C4 (amended): for every link-following helper call through
`StoreClient._getResourceRelatedListData`, when the found item carries no
Link with the requested relation, the operation succeeds silently with the
default empty result `{data: [], hasNextPage: false, hasPreviousPage: false}`;
no `ProtocolError` is raised (no such type exists in the code). -/
theorem related_list_absent_relation_silently_empty (coll : Collection)
    (item : Item) (rest : List Item) (id : Nat) (listRelName : String)
    (fetchRelated : String → Except ApiError Collection)
    (hitems : coll.items = item :: rest)
    (hrel : getLinkRelationUrls item.links listRelName = []) :
    StoreClient.getResourceRelatedListData coll id listRelName fetchRelated
      = .ok (some (.list { data := [], hasNextPage := false, hasPreviousPage := false })) := by
  simp [StoreClient.getResourceRelatedListData, hitems, hrel]

/-- Witness for claim C4's amended theorem at the concrete one-item
collection with no links. -/
theorem related_list_absent_relation_silently_empty_witness :
    StoreClient.getResourceRelatedListData collOneItemNoLinks 1 "parameters" fetchConstEmpty
      = .ok (some (.list { data := [], hasNextPage := false, hasPreviousPage := false })) :=
  related_list_absent_relation_silently_empty collOneItemNoLinks itemNoLinks [] 1
    "parameters" fetchConstEmpty rfl rfl

/-- Claim C3, counterexample: the body posted by `Client.createUser` at a
concrete input is a one-field Collection+JSON template envelope, not the
three-field plain JSON object `{username, password, email}`, and the
request's content type is `application/vnd.collection+json`, not plain
JSON. -/
theorem createUser_body_not_plain_json_cx :
    (Client.createUserRequest "http://cube/api/v1/users/" "alice" "pw" "a@b.org").body
      ≠ JsonVal.obj
          [ ("username", .str "alice"), ("password", .str "pw")
          , ("email", .str "a@b.org") ]
    ∧ (Client.createUserRequest "http://cube/api/v1/users/" "alice" "pw" "a@b.org").contentType
      = "application/vnd.collection+json"
    ∧ (StoreClient.createUserRequest "http://store/api/v1/users/" "alice" "pw" "a@b.org").contentType
      = "application/vnd.collection+json" := by
  refine ⟨?_, rfl, rfl⟩
  intro h
  have hk := congrArg JsonVal.topFieldKey h
  simp [Client.createUserRequest, userTemplateEnvelope, JsonVal.topFieldKey] at hk

/-- Claim C3 (amended): `getAuthToken` (both clients) posts the plain JSON
object `{username, password}` with content type `application/json` and
resolves to the response's token field; `createUser` (both clients) instead
posts a Collection+JSON template envelope
`{template: {data: [username, password, email descriptors]}}` with content
type `application/vnd.collection+json` — never the plain three-field JSON
object. -/
theorem authToken_plain_json_createUser_template
    (authUrl usersUrl username password email token : String) :
    Client.getAuthTokenRequest authUrl username password
      = { url := authUrl, contentType := "application/json"
          body := .obj [("username", .str username), ("password", .str password)] }
    ∧ Client.getAuthTokenResolve (.obj [("token", .str token)]) = some (.str token)
    ∧ Client.createUserRequest usersUrl username password email
      = { url := usersUrl, contentType := "application/vnd.collection+json"
          body := userTemplateEnvelope username password email }
    ∧ StoreClient.createUserRequest usersUrl username password email
      = { url := usersUrl, contentType := "application/vnd.collection+json"
          body := userTemplateEnvelope username password email }
    ∧ (Client.createUserRequest usersUrl username password email).body
      ≠ JsonVal.obj
          [ ("username", .str username), ("password", .str password)
          , ("email", .str email) ] := by
  refine ⟨rfl, ?_, rfl, rfl, ?_⟩
  · simp [Client.getAuthTokenResolve, JsonVal.lookup]
  · intro h
    have hn := congrArg JsonVal.numFields h
    simp [Client.createUserRequest, userTemplateEnvelope, JsonVal.numFields] at hn

/-- Claim C5: for every decoded collection, the list-shaped result of
`StoreClient.getDataFromCollection(coll, 'list')` has `hasNextPage` true
if and only if the collection contains a Link with relation `next`, and
`hasPreviousPage` true if and only if it contains a Link with relation
`previous`. -/
theorem hasNextPage_iff_next_link (coll : Collection) :
    ∃ r : ListResult,
      getDataFromCollection coll "list" = some (.list r)
      ∧ (r.hasNextPage = true ↔ ∃ l ∈ coll.links, l.rel = "next")
      ∧ (r.hasPreviousPage = true ↔ ∃ l ∈ coll.links, l.rel = "previous") := by
  refine ⟨_, rfl, ?_, ?_⟩ <;>
    simp [getLinkRelationUrls, List.length_eq_zero, List.filter_eq_nil_iff]

/-- Claim C6: for every relation-following call that expects exactly one
related resource, when `getLinkRelationUrls` returns more than one URL for
the relation, the first URL in source order is the one used for the
subsequent request — in `Client.createPluginInstance` (the `instances`
relation), in `StoreClient.getUser` (the `user` relation), and in
`StoreClient._getResourceRelatedListData` (the list relation). -/
theorem first_link_url_wins (coll entryColl : Collection) (item : Item)
    (rest : List Item) (id : Nat) (rel u1 u2 v1 v2 w1 w2 : String)
    (us vs ws : List String) (fetch : String → Except ApiError Collection) :
    (coll.items = item :: rest →
      getLinkRelationUrls item.links "instances" = u1 :: u2 :: us →
      Client.createPluginInstanceUrl coll = some u1)
    ∧ (getLinkRelationUrls entryColl.links "user" = v1 :: v2 :: vs →
      StoreClient.getUser entryColl fetch
        = some ((fetch v1).map (fun c => getDataFromCollection c "item")))
    ∧ (coll.items = item :: rest →
      getLinkRelationUrls item.links rel = w1 :: w2 :: ws →
      StoreClient.getResourceRelatedListData coll id rel fetch
        = (fetch w1).map (fun c => getDataFromCollection c "list")) := by
  refine ⟨fun hitems hrel => ?_, fun hrel => ?_, fun hitems hrel => ?_⟩
  · simp [Client.createPluginInstanceUrl, hitems, hrel]
  · simp [StoreClient.getUser, hrel]
  · simp [StoreClient.getResourceRelatedListData, hitems, hrel]

/-- Witness for claim C6's theorem at a plugin collection with two
`instances` links and an entry collection with two `user` links. -/
theorem first_link_url_wins_witness :
    Client.createPluginInstanceUrl collTwoInstances
      = some "http://cube/api/v1/plugins/4/instances/"
    ∧ StoreClient.getUser entryTwoUserLinks fetchConstEmpty
      = some ((fetchConstEmpty "http://store/api/v1/users/7/").map
          (fun c => getDataFromCollection c "item"))
    ∧ StoreClient.getResourceRelatedListData collTwoInstances 4 "instances" fetchConstEmpty
      = (fetchConstEmpty "http://cube/api/v1/plugins/4/instances/").map
          (fun c => getDataFromCollection c "list") := by
  have h := first_link_url_wins collTwoInstances entryTwoUserLinks itemTwoInstances
    [] 4 "instances"
    "http://cube/api/v1/plugins/4/instances/" "http://cube/api/v1/plugins/4/instances2/"
    "http://store/api/v1/users/7/" "http://store/api/v1/users/8/"
    "http://cube/api/v1/plugins/4/instances/" "http://cube/api/v1/plugins/4/instances2/"
    [] [] [] fetchConstEmpty
  exact ⟨h.1 rfl (by decide), h.2.1 (by decide), h.2.2 rfl (by decide)⟩

/-- Claim C7: for every resource operation (`get`, `post`, `put`,
`delete`) whose transport fails (timeout, network fault, or non-2xx
response), the resource object's visible state — its last-fetched
Collection snapshot, search parameters and pagination flags — is exactly
what it was before the operation was issued, and the failure surfaces as
`RequestException`; visible state changes only on a fully successful
operation (every non-success outcome is a `failure`). -/
theorem resource_operation_failure_leaves_state_unchanged (res : ResourceState)
    (searchParams : List (String × String)) (data : List (String × Option String))
    (kind : String) :
    ResourceState.get res searchParams (.failure kind)
      = (res, some (.requestException kind))
    ∧ ResourceState.post res data (.failure kind)
      = (makeTemplate data, res, some (.requestException kind))
    ∧ ResourceState.put res data (.failure kind)
      = (makeTemplate data, res, some (.requestException kind))
    ∧ ResourceState.delete res (.failure kind)
      = (some res, some (.requestException kind)) :=
  ⟨rfl, rfl, rfl, rfl⟩

/-- Claim C8: for every façade getter on `Client`, when the corresponding
cached top-level URL is empty the getter first performs entry-point
discovery (`setUrls`' URL assignments over the fetched feed collection) to
populate it; and once any top-level URL field is populated, neither the
getter that owns it nor any other getter's discovery pass changes its
value. -/
theorem facade_urls_cached_and_stable (st : ClientState) (coll : Collection)
    (l : List String) :
    (Client.getFilesStep { st with filesUrl := none } coll
      = (Client.updateUrls { st with filesUrl := none } coll, none)
      ∧ (Client.updateUrls { st with filesUrl := none } coll).filesUrl
        = some (getLinkRelationUrls coll.links "files")
      ∧ Client.getFilesStep { st with filesUrl := some l } coll
        = ({ st with filesUrl := some l }, some l)
      ∧ (Client.updateUrls { st with filesUrl := some l } coll).filesUrl = some l)
    ∧ (Client.getPluginsStep { st with pluginsUrl := none } coll
      = (Client.updateUrls { st with pluginsUrl := none } coll, none)
      ∧ (Client.updateUrls { st with pluginsUrl := none } coll).pluginsUrl
        = some (getLinkRelationUrls coll.links "plugins")
      ∧ Client.getPluginsStep { st with pluginsUrl := some l } coll
        = ({ st with pluginsUrl := some l }, some l)
      ∧ (Client.updateUrls { st with pluginsUrl := some l } coll).pluginsUrl = some l)
    ∧ (Client.getPluginInstancesStep { st with pluginInstancesUrl := none } coll
      = (Client.updateUrls { st with pluginInstancesUrl := none } coll, none)
      ∧ (Client.updateUrls { st with pluginInstancesUrl := none } coll).pluginInstancesUrl
        = some (getLinkRelationUrls coll.links "plugin_instances")
      ∧ Client.getPluginInstancesStep { st with pluginInstancesUrl := some l } coll
        = ({ st with pluginInstancesUrl := some l }, some l)
      ∧ (Client.updateUrls { st with pluginInstancesUrl := some l } coll).pluginInstancesUrl
        = some l)
    ∧ (Client.getPipelinesStep { st with pipelinesUrl := none } coll
      = (Client.updateUrls { st with pipelinesUrl := none } coll, none)
      ∧ (Client.updateUrls { st with pipelinesUrl := none } coll).pipelinesUrl
        = some (getLinkRelationUrls coll.links "pipelines")
      ∧ Client.getPipelinesStep { st with pipelinesUrl := some l } coll
        = ({ st with pipelinesUrl := some l }, some l)
      ∧ (Client.updateUrls { st with pipelinesUrl := some l } coll).pipelinesUrl = some l)
    ∧ (Client.getPipelineInstancesStep { st with pipelineInstancesUrl := none } coll
      = (Client.updateUrls { st with pipelineInstancesUrl := none } coll, none)
      ∧ (Client.updateUrls { st with pipelineInstancesUrl := none } coll).pipelineInstancesUrl
        = some (getLinkRelationUrls coll.links "pipeline_instances")
      ∧ Client.getPipelineInstancesStep { st with pipelineInstancesUrl := some l } coll
        = ({ st with pipelineInstancesUrl := some l }, some l)
      ∧ (Client.updateUrls { st with pipelineInstancesUrl := some l } coll).pipelineInstancesUrl
        = some l)
    ∧ (Client.getTagsStep { st with tagsUrl := none } coll
      = (Client.updateUrls { st with tagsUrl := none } coll, none)
      ∧ (Client.updateUrls { st with tagsUrl := none } coll).tagsUrl
        = some (getLinkRelationUrls coll.links "tags")
      ∧ Client.getTagsStep { st with tagsUrl := some l } coll
        = ({ st with tagsUrl := some l }, some l)
      ∧ (Client.updateUrls { st with tagsUrl := some l } coll).tagsUrl = some l)
    ∧ (Client.getUploadedFilesStep { st with uploadedFilesUrl := none } coll
      = (Client.updateUrls { st with uploadedFilesUrl := none } coll, none)
      ∧ (Client.updateUrls { st with uploadedFilesUrl := none } coll).uploadedFilesUrl
        = some (getLinkRelationUrls coll.links "uploadedfiles")
      ∧ Client.getUploadedFilesStep { st with uploadedFilesUrl := some l } coll
        = ({ st with uploadedFilesUrl := some l }, some l)
      ∧ (Client.updateUrls { st with uploadedFilesUrl := some l } coll).uploadedFilesUrl
        = some l)
    ∧ (Client.getUserStep { st with userUrl := none } coll
      = (Client.updateUrls { st with userUrl := none } coll, none)
      ∧ (Client.updateUrls { st with userUrl := none } coll).userUrl
        = some (getLinkRelationUrls coll.links "user")
      ∧ Client.getUserStep { st with userUrl := some l } coll
        = ({ st with userUrl := some l }, some l)
      ∧ (Client.updateUrls { st with userUrl := some l } coll).userUrl = some l) := by
  exact ⟨⟨rfl, rfl, rfl, rfl⟩, ⟨rfl, rfl, rfl, rfl⟩, ⟨rfl, rfl, rfl, rfl⟩,
    ⟨rfl, rfl, rfl, rfl⟩, ⟨rfl, rfl, rfl, rfl⟩, ⟨rfl, rfl, rfl, rfl⟩,
    ⟨rfl, rfl, rfl, rfl⟩, ⟨rfl, rfl, rfl, rfl⟩⟩

/-- Claim C9: `StoreClient.getDataFromCollection` with a collection type
other than `'list'` reads the first element of the items sequence
unguarded; under the precondition that the items are non-empty the access
is safe and the result's data equals the first item's descriptors, while
every internal caller that passes `'item'` applies it to the response
collection verbatim, with no emptiness check (so on an item-less response
the unguarded access faults, modelled as `none`). -/
theorem item_branch_reads_first_item (coll respColl : Collection)
    (item : Item) (rest : List Item) (h : coll.items = item :: rest) :
    getDataFromCollection coll "item"
      = some (.item { data := getItemDescriptors item })
    ∧ StoreClient.createUserResolve respColl = getDataFromCollection respColl "item"
    ∧ StoreClient.addPluginResolve respColl = getDataFromCollection respColl "item"
    ∧ StoreClient.modifyPluginResolve respColl = getDataFromCollection respColl "item"
    ∧ StoreClient.modifyPipelineResolve respColl = getDataFromCollection respColl "item"
    ∧ StoreClient.getUserResolve respColl = getDataFromCollection respColl "item"
    ∧ StoreClient.updateUserResolve respColl = getDataFromCollection respColl "item"
    ∧ StoreClient.createUserResolve collEmpty = none := by
  refine ⟨?_, rfl, rfl, rfl, rfl, rfl, rfl, rfl⟩
  simp [getDataFromCollection, h]

/-- Witness for claim C9's theorem at a one-item collection and the empty
collection. -/
theorem item_branch_reads_first_item_witness :
    getDataFromCollection collOneItemNoLinks "item"
      = some (.item { data := getItemDescriptors itemNoLinks })
    ∧ StoreClient.createUserResolve collEmpty = getDataFromCollection collEmpty "item"
    ∧ StoreClient.addPluginResolve collEmpty = getDataFromCollection collEmpty "item"
    ∧ StoreClient.modifyPluginResolve collEmpty = getDataFromCollection collEmpty "item"
    ∧ StoreClient.modifyPipelineResolve collEmpty = getDataFromCollection collEmpty "item"
    ∧ StoreClient.getUserResolve collEmpty = getDataFromCollection collEmpty "item"
    ∧ StoreClient.updateUserResolve collEmpty = getDataFromCollection collEmpty "item"
    ∧ StoreClient.createUserResolve collEmpty = none :=
  item_branch_reads_first_item collOneItemNoLinks collEmpty itemNoLinks [] rfl

/-- Claim C10: for every `StoreClient.modifyPlugin(id, publicRepo, newOwner)`
call where an item with the given id exists, if `publicRepo` is empty the
PUT body's `public_repo` field equals the `public_repo` descriptor value
of the item just fetched, and an `owner` field is included exactly when
`newOwner` is non-empty. -/
theorem modifyPlugin_preserves_public_repo (coll : Collection) (item : Item)
    (rest : List Item) (id : Nat) (newOwner v : String)
    (hitems : coll.items = item :: rest)
    (hrepo : (item.data.filter (fun d => d.name = "public_repo")).head?
      = some { name := "public_repo", value := v }) :
    ∃ body : List Descriptor,
      StoreClient.modifyPlugin coll id "" newOwner = .ok (some (item.href, body))
      ∧ (body.find? (fun d => d.name = "public_repo")).map Descriptor.value = some v
      ∧ (body.any (fun d => d.name = "owner") = true ↔ newOwner ≠ "") := by
  by_cases hno : newOwner = ""
  · refine ⟨[{ name := "public_repo", value := v }], ?_, by simp, by simp [hno]⟩
    simp [StoreClient.modifyPlugin, StoreClient.modifyPluginData, hitems, hrepo, hno,
      makeTemplate]
  · refine ⟨[{ name := "public_repo", value := v }, { name := "owner", value := newOwner }],
      ?_, by simp, by simp [hno]⟩
    simp [StoreClient.modifyPlugin, StoreClient.modifyPluginData, hitems, hrepo, hno,
      makeTemplate]

/-- Witness for claim C10's theorem at a concrete plugin item carrying a
`public_repo` descriptor, with a new owner supplied. -/
theorem modifyPlugin_preserves_public_repo_witness :
    ∃ body : List Descriptor,
      StoreClient.modifyPlugin collWithRepo 5 "" "bob"
        = .ok (some (itemWithRepo.href, body))
      ∧ (body.find? (fun d => d.name = "public_repo")).map Descriptor.value
        = some "http://github.example/old"
      ∧ (body.any (fun d => d.name = "owner") = true ↔ ("bob" : String) ≠ "") :=
  modifyPlugin_preserves_public_repo collWithRepo itemWithRepo [] 5 "bob"
    "http://github.example/old" rfl (by decide)

end ChrisApi
